import Mathlib

/-!
Shallow embedding of the chat-window registry implemented in
src/src/contexts/ChatContext.tsx (the ChatProvider component).

The registry state consists of three pieces of React state:
  chatWindows        : ChatWindow[]
  closedChats        : Set<string>            (modelled as a list, membership is what matters;
                                               insertion keeps order and skips duplicates,
                                               matching new Set([...prev, userId]))
  lastSeenMessageIds : Record<string,string>  (modelled as an association list where the
                                               first binding for a key wins, matching
                                               {...prev, [chatId]: id} extensionally)

All operations are pure state transformers.  Remote (Firestore) effects are modelled
explicitly where a claim is about them: markAsRead carries the remote message store and
a commit outcome, closeChat's typing-indicator document id is a separate definition.
JavaScript string falsiness (the || fallback chains) is modelled by treating the empty
string as the "missing" value.  Firestore Timestamps are modelled as Nat.
-/

namespace ChatContext

/-- JavaScript a || b on strings: the empty string (and an absent field, which behaves
identically under ||) falls through to the fallback. -/
def strOr (a b : String) : String := if a = "" then b else a

/-- The UserProfile fields that ChatContext.tsx constructs (lines 99-143). -/
structure UserProfile where
  id : String
  uid : String
  displayName : String
  username : String
  photoURL : String
  email : String
  createdAt : Nat
  updatedAt : Nat
  isAgeVerified : Bool
  isVerified : Bool
  role : String
  status : String
  deriving Repr, DecidableEq

/-- Screen position {x, y}.  Int because it is computed by subtraction before clamping. -/
structure Position where
  x : Int
  y : Int
  deriving Repr, DecidableEq

/-- interface ChatWindow (lines 11-17). -/
structure ChatWindow where
  id : String
  user : UserProfile
  isMinimized : Bool
  position : Position
  unreadCount : Nat
  deriving Repr, DecidableEq

/-- The three pieces of registry state owned by ChatProvider. -/
structure RegistryState where
  chatWindows : List ChatWindow
  closedChats : List String
  lastSeenMessageIds : List (String × String)
  deriving Repr, DecidableEq

/-- A message document as read by the snapshot handler: id plus the data fields it
uses (senderId, senderName, senderPhotoURL). -/
structure Message where
  id : String
  senderId : String
  senderName : String
  senderPhotoURL : String
  deriving Repr, DecidableEq

/-- A stored user-profile document as read by the sender lookup (lines 98-111).
String fields use "" for absent (both are falsy under ||); the Timestamp fields
use Option since senderProfile.createdAt || Timestamp.now() falls back only when
the field is absent. -/
structure StoredProfile where
  displayName : String
  username : String
  photoURL : String
  email : String
  createdAt : Option Nat
  updatedAt : Option Nat
  isAgeVerified : Bool
  isVerified : Bool
  role : String
  status : String
  deriving Repr, DecidableEq

/-- Outcome of getDoc(doc(db, users, senderId)): the document exists, does not
exist, or the fetch throws (the catch branch, lines 129-144). -/
inductive ProfileFetch where
  | found (senderProfile : StoredProfile)
  | notFound
  | fetchError
  deriving Repr, DecidableEq

/-- A chat document from the chats onSnapshot (lines 62-65): its id and
participants array. -/
structure ChatDoc where
  id : String
  participants : List String
  deriving Repr, DecidableEq

/-- A message document in the remote store as touched by markAsRead (read flag and
status field). -/
structure StoredMessage where
  id : String
  senderId : String
  read : Bool
  status : String
  deriving Repr, DecidableEq

/-- openChat (lines 178-207).  innerWidth/innerHeight are the viewport dimensions
read from the window object.  If a window for user.uid exists, un-minimize it and
clear its unread count; otherwise append a new unminimized window at the cascading
position. -/
def openChat (innerWidth innerHeight : Nat) (u : UserProfile) (s : RegistryState) :
    RegistryState :=
  if s.chatWindows.any (fun w => w.user.uid == u.uid) then
    { s with chatWindows := s.chatWindows.map (fun w =>
        if w.user.uid == u.uid then { w with isMinimized := false, unreadCount := 0 }
        else w) }
  else
    let newPosition : Position :=
      { x := max 0 ((innerWidth : Int) - 320 - ((s.chatWindows.length : Int) * 20))
        y := max 0 ((innerHeight : Int) - 400 - ((s.chatWindows.length : Int) * 20)) }
    { s with chatWindows := s.chatWindows ++ [{
        id := u.uid
        user := u
        isMinimized := false
        position := newPosition
        unreadCount := 0 }] }

/-- closeChat (lines 209-223), local state part: filter the window out of
chatWindows, then add userId to closedChats (Set insertion: no duplicate, order
kept). -/
def closeChat (userId : String) (s : RegistryState) : RegistryState :=
  let s1 := { s with chatWindows := s.chatWindows.filter (fun w => w.user.uid != userId) }
  { s1 with closedChats :=
      if s1.closedChats.contains userId then s1.closedChats
      else s1.closedChats ++ [userId] }

/-- The conversation document id computed inside closeChat (line 227):
[user.uid, userId].sort().join with the underscore separator; used to clear the
typing indicator.  JS default sort on a two-element string array puts the
lexicographically smaller id first. -/
def closeChatChatId (currentUid userId : String) : String :=
  if currentUid ≤ userId then currentUid ++ "_" ++ userId
  else userId ++ "_" ++ currentUid

/-- minimizeChat (lines 234-242): toggles isMinimized on the matching window. -/
def minimizeChat (userId : String) (s : RegistryState) : RegistryState :=
  { s with chatWindows := s.chatWindows.map (fun w =>
      if w.user.uid == userId then { w with isMinimized := !w.isMinimized } else w) }

/-- updatePosition (lines 244-252): overwrites position on the matching window. -/
def updatePosition (userId : String) (pos : Position) (s : RegistryState) :
    RegistryState :=
  { s with chatWindows := s.chatWindows.map (fun w =>
      if w.user.uid == userId then { w with position := pos } else w) }

/-- The synchronous local part of markAsRead (lines 256-262): zero the unread
count of the matching window. -/
def markAsReadLocal (userId : String) (s : RegistryState) : RegistryState :=
  { s with chatWindows := s.chatWindows.map (fun w =>
      if w.user.uid == userId then { w with unreadCount := 0 } else w) }

/-- The conversation document id computed inside markAsRead (line 269):
[currentUser.uid, userId].sort().join with the underscore separator. -/
def markAsReadChatId (currentUid userId : String) : String :=
  if currentUid ≤ userId then currentUid ++ "_" ++ userId
  else userId ++ "_" ++ currentUid

/-- markAsRead (lines 254-293).  The local update runs first, unconditionally.
Then the remote phase: if no authenticated user, return; otherwise query the
messages of the conversation with senderId == userId and read == false and commit
a batch setting read := true, status := read on each.  commitSucceeds models the
batch.commit() outcome; on failure the catch block only logs - no local state is
reverted in either branch. -/
def markAsRead (userId : String) (currentUser : Option String)
    (store : List StoredMessage) (commitSucceeds : Bool) (s : RegistryState) :
    RegistryState × List StoredMessage :=
  let s1 := markAsReadLocal userId s
  let newStore :=
    match currentUser with
    | none => store
    | some _ =>
      let snapshot := store.filter (fun m => m.senderId == userId && m.read == false)
      if snapshot.isEmpty then store
      else if commitSucceeds then
        store.map (fun m =>
          if m.senderId == userId && m.read == false then
            { m with read := true, status := "read" }
          else m)
      else store
  (s1, newStore)

/-- The sender-profile resolution (lines 93-144): build the UserProfile for the
sender from the fetch outcome, falling back field-by-field (found case) or to a
synthesized minimal profile (not-found and catch cases).  now models
Timestamp.now(). -/
def buildSenderUser (senderId : String) (messageData : Message)
    (fetch : ProfileFetch) (now : Nat) : UserProfile :=
  match fetch with
  | .found senderProfile =>
    { id := senderId
      uid := senderId
      displayName := strOr senderProfile.displayName messageData.senderName
      username := strOr senderProfile.username senderId
      photoURL := strOr senderProfile.photoURL (strOr messageData.senderPhotoURL "")
      email := strOr senderProfile.email ""
      createdAt := senderProfile.createdAt.getD now
      updatedAt := senderProfile.updatedAt.getD now
      isAgeVerified := senderProfile.isAgeVerified
      isVerified := senderProfile.isVerified
      role := strOr senderProfile.role "user"
      status := strOr senderProfile.status "active" }
  | .notFound =>
    { id := senderId
      uid := senderId
      displayName := messageData.senderName
      username := messageData.senderName
      photoURL := strOr messageData.senderPhotoURL ""
      email := ""
      createdAt := now
      updatedAt := now
      isAgeVerified := false
      isVerified := false
      role := "user"
      status := "active" }
  | .fetchError =>
    { id := senderId
      uid := senderId
      displayName := messageData.senderName
      username := messageData.senderName
      photoURL := strOr messageData.senderPhotoURL ""
      email := ""
      createdAt := now
      updatedAt := now
      isAgeVerified := false
      isVerified := false
      role := "user"
      status := "active" }

/-- The per-conversation messages onSnapshot handler (lines 78-167).  docs is the
snapshot's document list in timestamp-descending order; only docs[0] is inspected.
Guards: no document, own message, already-seen message id.  Otherwise record the
cursor, then either create a minimized window with unreadCount 1 (no existing
window for the sender) or increment the existing window's unreadCount. -/
def handleMessagesSnapshot (currentUid chatId : String) (docs : List Message)
    (fetch : ProfileFetch) (now innerWidth innerHeight : Nat) (s : RegistryState) :
    RegistryState :=
  match docs.head? with
  | none => s
  | some latestDoc =>
    if latestDoc.senderId == currentUid then s
    else if s.lastSeenMessageIds.lookup chatId == some latestDoc.id then s
    else
      let s1 := { s with lastSeenMessageIds := (chatId, latestDoc.id) :: s.lastSeenMessageIds }
      match s1.chatWindows.find? (fun w => w.user.uid == latestDoc.senderId) with
      | none =>
        let senderUser := buildSenderUser latestDoc.senderId latestDoc fetch now
        { s1 with chatWindows := s1.chatWindows ++ [{
            id := latestDoc.senderId
            user := senderUser
            isMinimized := true
            position := {
              x := max 0 ((innerWidth : Int) - 320 - ((s1.chatWindows.length : Int) * 20))
              y := max 0 ((innerHeight : Int) - 400 - ((s1.chatWindows.length : Int) * 20)) }
            unreadCount := 1 }] }
      | some _ =>
        { s1 with chatWindows := s1.chatWindows.map (fun w =>
            if w.user.uid == latestDoc.senderId then
              { w with unreadCount := w.unreadCount + 1 }
            else w) }

/-- One iteration of the chats onSnapshot forEach (lines 62-77 plus the nested
message handler): find the other participant; if absent, return; if the chat is
in closedChats, skip (no message subscription is even created); otherwise the
message-stream snapshot reaches handleMessagesSnapshot. -/
def deliverChatUpdate (currentUid : String) (chatDoc : ChatDoc) (docs : List Message)
    (fetch : ProfileFetch) (now innerWidth innerHeight : Nat) (s : RegistryState) :
    RegistryState :=
  match chatDoc.participants.find? (fun pid => pid != currentUid) with
  | none => s
  | some otherParticipantId =>
    if s.closedChats.contains otherParticipantId then s
    else handleMessagesSnapshot currentUid chatDoc.id docs fetch now innerWidth innerHeight s

/-- The invariant of claim C2: at most one ChatWindow per counterpart uid. -/
def uniqueWindows (ws : List ChatWindow) : Prop :=
  (ws.map (fun w => w.user.uid)).Nodup

instance (ws : List ChatWindow) : Decidable (uniqueWindows ws) :=
  inferInstanceAs (Decidable (List.Nodup _))

/-- N explicit openChat calls folded over the registry state, in call order. -/
def openAll (innerWidth innerHeight : Nat) (us : List UserProfile)
    (s : RegistryState) : RegistryState :=
  us.foldl (fun acc u => openChat innerWidth innerHeight u acc) s

/-- The window openChat appends for user u when n windows are already open:
un-minimized, unread 0, at the cascading position (n steps of 20 from the
bottom-right edge, clamped at 0). -/
def mkFreshWindow (innerWidth innerHeight n : Nat) (u : UserProfile) : ChatWindow :=
  { id := u.uid
    user := u
    isMinimized := false
    position :=
      { x := max 0 ((innerWidth : Int) - 320 - ((n : Int) * 20))
        y := max 0 ((innerHeight : Int) - 400 - ((n : Int) * 20)) }
    unreadCount := 0 }

/-- The windows produced by opening the users of us in order, starting with n
windows already open. -/
def freshWindows (innerWidth innerHeight n : Nat) :
    List UserProfile → List ChatWindow
  | [] => []
  | u :: us => mkFreshWindow innerWidth innerHeight n u ::
      freshWindows innerWidth innerHeight (n + 1) us

/-- A concrete profile used by witnesses. -/
def profA : UserProfile :=
  { id := "alice", uid := "alice", displayName := "Alice", username := "alice"
    photoURL := "", email := "", createdAt := 0, updatedAt := 0
    isAgeVerified := false, isVerified := false, role := "user", status := "active" }

/-- A second concrete profile used by witnesses. -/
def profB : UserProfile :=
  { id := "bob", uid := "bob", displayName := "Bob", username := "bob"
    photoURL := "", email := "", createdAt := 0, updatedAt := 0
    isAgeVerified := false, isVerified := false, role := "user", status := "active" }

/-- A third concrete profile used by the C7 witness. -/
def profC : UserProfile :=
  { id := "cara", uid := "cara", displayName := "Cara", username := "cara"
    photoURL := "", email := "", createdAt := 0, updatedAt := 0
    isAgeVerified := false, isVerified := false, role := "user", status := "active" }

/-- A concrete open window for a profile, used by witnesses. -/
def sampleWindow (u : UserProfile) : ChatWindow :=
  { id := u.uid, user := u, isMinimized := false, position := { x := 0, y := 0 }
    unreadCount := 2 }

/-- A concrete registry state holding one window for profA. -/
def sampleState : RegistryState :=
  { chatWindows := [sampleWindow profA], closedChats := [], lastSeenMessageIds := [] }

/-- The registry state at startup: no windows, nothing closed, empty cursor map. -/
def emptyState : RegistryState :=
  { chatWindows := [], closedChats := [], lastSeenMessageIds := [] }

/-- A concrete inbound message from bob. -/
def msgB : Message :=
  { id := "m1", senderId := "bob", senderName := "Bob", senderPhotoURL := "p.png" }

/-- A second concrete inbound message from alice, used by the C8 witness. -/
def msgA7 : Message :=
  { id := "m7", senderId := "alice", senderName := "Alice", senderPhotoURL := "" }

/-- A concrete remote message store with one unread message from alice. -/
def sampleStore : List StoredMessage :=
  [{ id := "m9", senderId := "alice", read := false, status := "sent" }]

theorem uniqueWindows_map (f : ChatWindow → ChatWindow)
    (hf : ∀ w, (f w).user.uid = w.user.uid) (ws : List ChatWindow)
    (h : uniqueWindows ws) : uniqueWindows (ws.map f) := by
  unfold uniqueWindows at h ⊢
  rw [List.map_map]
  have he : ((fun w => w.user.uid) ∘ f) = fun w : ChatWindow => w.user.uid :=
    funext hf
  rw [he]
  exact h

theorem uniqueWindows_filter (p : ChatWindow → Bool) (ws : List ChatWindow)
    (h : uniqueWindows ws) : uniqueWindows (ws.filter p) := by
  unfold uniqueWindows at h ⊢
  exact ((List.filter_sublist ws).map (fun w => w.user.uid)).nodup h

theorem uniqueWindows_append_one (ws : List ChatWindow) (w : ChatWindow)
    (h : uniqueWindows ws) (hw : ∀ v ∈ ws, v.user.uid ≠ w.user.uid) :
    uniqueWindows (ws ++ [w]) := by
  unfold uniqueWindows at h ⊢
  rw [List.map_append]
  simp only [List.map_cons, List.map_nil]
  rw [List.nodup_append]
  refine ⟨h, List.nodup_singleton _, ?_⟩
  intro x hx
  simp only [List.mem_map] at hx
  obtain ⟨v, hv, rfl⟩ := hx
  simp only [List.mem_singleton]
  exact fun hc => hw v hv hc

theorem buildSenderUser_uid (senderId : String) (m : Message)
    (fetch : ProfileFetch) (now : Nat) :
    (buildSenderUser senderId m fetch now).uid = senderId := by
  cases fetch <;> rfl

theorem markAsRead_fst (userId : String) (cu : Option String)
    (store : List StoredMessage) (ok : Bool) (s : RegistryState) :
    (markAsRead userId cu store ok s).1 = markAsReadLocal userId s := rfl

theorem uniqueWindows_openChat (vw vh : Nat) (u : UserProfile) (s : RegistryState)
    (h : uniqueWindows s.chatWindows) :
    uniqueWindows (openChat vw vh u s).chatWindows := by
  unfold openChat
  by_cases hany : (s.chatWindows.any (fun w => w.user.uid == u.uid)) = true
  · simp only [hany, ite_true]
    exact uniqueWindows_map _
      (fun w => by by_cases hw : (w.user.uid == u.uid) = true <;> simp [hw]) _ h
  · simp only [hany, ite_false, Bool.false_eq_true]
    apply uniqueWindows_append_one _ _ h
    intro v hv hc
    apply hany
    rw [List.any_eq_true]
    exact ⟨v, hv, by simp [hc]⟩

theorem uniqueWindows_closeChat (userId : String) (s : RegistryState)
    (h : uniqueWindows s.chatWindows) :
    uniqueWindows (closeChat userId s).chatWindows :=
  uniqueWindows_filter _ _ h

theorem uniqueWindows_minimizeChat (userId : String) (s : RegistryState)
    (h : uniqueWindows s.chatWindows) :
    uniqueWindows (minimizeChat userId s).chatWindows :=
  uniqueWindows_map _
    (fun w => by by_cases hw : (w.user.uid == userId) = true <;> simp [hw]) _ h

theorem uniqueWindows_updatePosition (userId : String) (pos : Position)
    (s : RegistryState) (h : uniqueWindows s.chatWindows) :
    uniqueWindows (updatePosition userId pos s).chatWindows :=
  uniqueWindows_map _
    (fun w => by by_cases hw : (w.user.uid == userId) = true <;> simp [hw]) _ h

theorem uniqueWindows_markAsRead (userId : String) (cu : Option String)
    (store : List StoredMessage) (ok : Bool) (s : RegistryState)
    (h : uniqueWindows s.chatWindows) :
    uniqueWindows (markAsRead userId cu store ok s).1.chatWindows := by
  rw [markAsRead_fst]
  exact uniqueWindows_map _
    (fun w => by by_cases hw : (w.user.uid == userId) = true <;> simp [hw]) _ h

theorem uniqueWindows_handleMessagesSnapshot (currentUid chatId : String)
    (docs : List Message) (fetch : ProfileFetch) (now vw vh : Nat)
    (s : RegistryState) (h : uniqueWindows s.chatWindows) :
    uniqueWindows (handleMessagesSnapshot currentUid chatId docs fetch now vw vh s).chatWindows := by
  unfold handleMessagesSnapshot
  cases docs with
  | nil => exact h
  | cons m rest =>
    simp only [List.head?_cons]
    by_cases h1 : (m.senderId == currentUid) = true
    · simpa [h1] using h
    · simp only [h1, Bool.false_eq_true, ite_false]
      by_cases h2 : (List.lookup chatId s.lastSeenMessageIds == some m.id) = true
      · simpa [h2] using h
      · simp only [h2, Bool.false_eq_true, ite_false]
        cases hfind : List.find? (fun w => w.user.uid == m.senderId)
            ({ s with lastSeenMessageIds := (chatId, m.id) :: s.lastSeenMessageIds }).chatWindows with
        | none =>
          simp only [hfind]
          apply uniqueWindows_append_one _ _ h
          intro v hv hc
          have hn := List.find?_eq_none.mp hfind v hv
          rw [buildSenderUser_uid] at hc
          simp [hc] at hn
        | some w =>
          simp only [hfind]
          exact uniqueWindows_map _
            (fun w => by by_cases hw : (w.user.uid == m.senderId) = true <;> simp [hw]) _ h

theorem openChat_target_state (vw vh : Nat) (u : UserProfile) (s : RegistryState) :
    ∀ w ∈ (openChat vw vh u s).chatWindows, w.user.uid = u.uid →
      w.isMinimized = false ∧ w.unreadCount = 0 := by
  intro w hw huid
  unfold openChat at hw
  by_cases hany : (s.chatWindows.any (fun w => w.user.uid == u.uid)) = true
  · simp only [hany, ite_true] at hw
    simp only [List.mem_map] at hw
    obtain ⟨v, hv, rfl⟩ := hw
    by_cases hc : (v.user.uid == u.uid) = true
    · simp [hc]
    · simp only [hc, Bool.false_eq_true, ite_false] at huid
      simp [huid] at hc
  · simp only [hany, Bool.false_eq_true, ite_false, List.mem_append,
      List.mem_singleton] at hw
    rcases hw with hw | rfl
    · have hf : (s.chatWindows.any (fun w => w.user.uid == u.uid)) = false := by
        simpa using hany
      have := List.any_eq_false.mp hf w hw
      simp [huid] at this
    · exact ⟨rfl, rfl⟩

theorem openChat_any (vw vh : Nat) (u : UserProfile) (s : RegistryState) :
    ((openChat vw vh u s).chatWindows.any (fun w => w.user.uid == u.uid)) = true := by
  unfold openChat
  by_cases hany : (s.chatWindows.any (fun w => w.user.uid == u.uid)) = true
  · rw [if_pos hany]
    rw [List.any_eq_true] at hany
    obtain ⟨v, hv, hc⟩ := hany
    rw [List.any_eq_true]
    exact ⟨_, List.mem_map_of_mem _ hv, by simp [hc]⟩
  · simp [hany]

theorem openChat_noop (vw vh : Nat) (u : UserProfile) (t : RegistryState)
    (hany : (t.chatWindows.any (fun w => w.user.uid == u.uid)) = true)
    (hprop : ∀ w ∈ t.chatWindows, w.user.uid = u.uid →
      w.isMinimized = false ∧ w.unreadCount = 0) :
    openChat vw vh u t = t := by
  unfold openChat
  rw [if_pos hany]
  have h1 : ∀ w ∈ t.chatWindows,
      (if (w.user.uid == u.uid) = true then
        { w with isMinimized := false, unreadCount := 0 } else w) = id w := by
    intro w hw
    by_cases hc : (w.user.uid == u.uid) = true
    · obtain ⟨hm, hu⟩ := hprop w hw (by simpa using hc)
      simp only [hc, ite_true, id]
      cases w
      simp_all
    · simp [hc]
  rw [List.map_congr_left h1, List.map_id]

theorem countP_uid_eq_one (ws : List ChatWindow) (x : String)
    (h : uniqueWindows ws) (hmem : (ws.any (fun w => w.user.uid == x)) = true) :
    (ws.countP (fun w => w.user.uid == x)) = 1 := by
  induction ws with
  | nil => simp at hmem
  | cons w ws ih =>
    rw [List.countP_cons]
    by_cases hc : (w.user.uid == x) = true
    · have hx : w.user.uid = x := by simpa using hc
      have hnotin : ∀ v ∈ ws, (v.user.uid == x) = false := by
        intro v hv
        unfold uniqueWindows at h
        rw [List.map_cons, List.nodup_cons] at h
        by_cases hvx : v.user.uid = x
        · exact absurd (by rw [hx, ← hvx]; exact List.mem_map_of_mem _ hv) h.1
        · simpa using hvx
      have h0 : ws.countP (fun w => w.user.uid == x) = 0 :=
        List.countP_eq_zero.mpr (fun v hv => by simp [hnotin v hv])
      simp [hc, h0]
    · have hmem2 : ws.any (fun w => w.user.uid == x) = true := by
        rw [List.any_cons] at hmem
        simp only [hc, Bool.false_or] at hmem
        exact hmem
      have hnd : uniqueWindows ws := by
        unfold uniqueWindows at h ⊢
        rw [List.map_cons, List.nodup_cons] at h
        exact h.2
      simp [hc, ih hnd hmem2]

theorem openChat_countP (vw vh : Nat) (u : UserProfile) (s : RegistryState)
    (h : uniqueWindows s.chatWindows) :
    ((openChat vw vh u s).chatWindows.countP (fun w => w.user.uid == u.uid)) = 1 := by
  unfold openChat
  by_cases hany : (s.chatWindows.any (fun w => w.user.uid == u.uid)) = true
  · rw [if_pos hany]
    rw [List.countP_map]
    have hfun : ((fun w : ChatWindow => w.user.uid == u.uid) ∘
        (fun w => if w.user.uid == u.uid then
          { w with isMinimized := false, unreadCount := 0 } else w)) =
        fun w : ChatWindow => w.user.uid == u.uid := by
      funext w
      by_cases hc : (w.user.uid == u.uid) = true <;> simp [Function.comp, hc]
    rw [hfun]
    exact countP_uid_eq_one s.chatWindows u.uid h hany
  · rw [if_neg hany]
    rw [List.countP_append]
    have hf : (s.chatWindows.any (fun w => w.user.uid == u.uid)) = false := by
      simpa using hany
    have h0 : s.chatWindows.countP (fun w => w.user.uid == u.uid) = 0 :=
      List.countP_eq_zero.mpr (fun v hv => by simp [List.any_eq_false.mp hf v hv])
    simp [h0, List.countP_cons]

theorem sortJoin_comm (a b : String) :
    (if a ≤ b then a ++ "_" ++ b else b ++ "_" ++ a) =
    (if b ≤ a then b ++ "_" ++ a else a ++ "_" ++ b) := by
  rcases le_total a b with hab | hba
  · by_cases hba2 : b ≤ a
    · have hEq := le_antisymm hab hba2
      subst hEq
      rfl
    · rw [if_pos hab, if_neg hba2]
  · by_cases hab2 : a ≤ b
    · have hEq := le_antisymm hab2 hba
      subst hEq
      rfl
    · rw [if_neg hab2, if_pos hba]

theorem closeChat_contains (userId : String) (s : RegistryState) :
    ((closeChat userId s).closedChats.contains userId) = true := by
  show ((if (s.closedChats.contains userId) = true then s.closedChats
         else s.closedChats ++ [userId]).contains userId) = true
  by_cases hc : (s.closedChats.contains userId) = true
  · rw [if_pos hc]
    exact hc
  · rw [if_neg hc]
    simp

theorem closeChat_mem_closedChats (userId : String) (s : RegistryState) :
    userId ∈ (closeChat userId s).closedChats := by
  have := closeChat_contains userId s
  simpa using this

theorem closeChat_no_window (userId : String) (s : RegistryState) :
    ∀ w ∈ (closeChat userId s).chatWindows, w.user.uid ≠ userId := by
  intro w hw
  have hp := (List.mem_filter.mp hw).2
  simpa using hp

theorem deliverChatUpdate_skips_closed (currentUid otherId : String)
    (chatDoc : ChatDoc) (docs : List Message) (fetch : ProfileFetch)
    (now vw vh : Nat) (s : RegistryState)
    (hfind : chatDoc.participants.find? (fun pid => pid != currentUid) = some otherId)
    (hclosed : (s.closedChats.contains otherId) = true) :
    deliverChatUpdate currentUid chatDoc docs fetch now vw vh s = s := by
  unfold deliverChatUpdate
  rw [hfind]
  exact if_pos hclosed

theorem strOr_empty_fallback (a : String) : strOr a "" = a := by
  unfold strOr
  by_cases h : a = "" <;> simp [h]

theorem freshWindows_length (vw vh n : Nat) (us : List UserProfile) :
    (freshWindows vw vh n us).length = us.length := by
  induction us generalizing n with
  | nil => rfl
  | cons u us ih => simp [freshWindows, ih]

theorem freshWindows_get (vw vh : Nat) (us : List UserProfile) (n k : Nat)
    (hk : k < us.length)
    (hk2 : k < (freshWindows vw vh n us).length) :
    (freshWindows vw vh n us).get ⟨k, hk2⟩ =
      mkFreshWindow vw vh (n + k) (us.get ⟨k, hk⟩) := by
  induction us generalizing n k with
  | nil => exact absurd hk (Nat.not_lt_zero k)
  | cons u us ih =>
    cases k with
    | zero => rfl
    | succ k =>
      have hk3 : k < us.length := Nat.lt_of_succ_lt_succ hk
      have hk4 : k < (freshWindows vw vh (n + 1) us).length := by
        rw [freshWindows_length]
        exact hk3
      show (freshWindows vw vh (n + 1) us).get ⟨k, hk4⟩ = _
      rw [ih (n + 1) k hk3 hk4]
      have : n + 1 + k = n + (k + 1) := by omega
      rw [this]
      rfl

theorem openChat_fresh (vw vh : Nat) (u : UserProfile) (s : RegistryState)
    (hnew : ∀ w ∈ s.chatWindows, w.user.uid ≠ u.uid) :
    (openChat vw vh u s).chatWindows =
      s.chatWindows ++ [mkFreshWindow vw vh s.chatWindows.length u] := by
  have hany : (s.chatWindows.any (fun w => w.user.uid == u.uid)) = false := by
    rw [List.any_eq_false]
    intro w hw
    simp [hnew w hw]
  unfold openChat
  rw [if_neg (by simp [hany])]
  rfl

theorem openAll_windows (vw vh : Nat) (us : List UserProfile) (s : RegistryState)
    (hnew : ∀ u ∈ us, ∀ w ∈ s.chatWindows, w.user.uid ≠ u.uid)
    (hnd : (us.map (fun u => u.uid)).Nodup) :
    (openAll vw vh us s).chatWindows =
      s.chatWindows ++ freshWindows vw vh s.chatWindows.length us := by
  induction us generalizing s with
  | nil => simp [openAll, freshWindows]
  | cons u us ih =>
    have hstep : (openChat vw vh u s).chatWindows =
        s.chatWindows ++ [mkFreshWindow vw vh s.chatWindows.length u] :=
      openChat_fresh vw vh u s (hnew u (List.mem_cons_self u us))
    have hnd2 : (us.map (fun u => u.uid)).Nodup := by
      rw [List.map_cons, List.nodup_cons] at hnd
      exact hnd.2
    have hnotin : u.uid ∉ us.map (fun u => u.uid) := by
      rw [List.map_cons, List.nodup_cons] at hnd
      exact hnd.1
    have hnew2 : ∀ v ∈ us, ∀ w ∈ (openChat vw vh u s).chatWindows,
        w.user.uid ≠ v.uid := by
      intro v hv w hw
      rw [hstep] at hw
      rcases List.mem_append.mp hw with hw | hw
      · exact hnew v (List.mem_cons_of_mem u hv) w hw
      · rw [List.mem_singleton] at hw
        subst hw
        show u.uid ≠ v.uid
        intro hEq
        exact hnotin (hEq ▸ List.mem_map_of_mem _ hv)
    have hrec := ih (openChat vw vh u s) hnew2 hnd2
    show (openAll vw vh us (openChat vw vh u s)).chatWindows = _
    rw [hrec, hstep]
    rw [List.length_append, List.length_singleton]
    rw [List.append_assoc]
    rfl

/-- C1: a duplicate delivery of a message snapshot whose latest message has the
same identifier as the one just processed is a no-op: applying the handler a
second time with the same latest message (whatever the profile-fetch outcome,
clock or viewport of the second delivery) returns the state of the first
application unchanged, so unreadCount is incremented at most once across the
two deliveries. -/
theorem C1_duplicate_snapshot_delivery_noop (currentUid chatId : String) (m : Message)
    (rest1 rest2 : List Message) (f1 f2 : ProfileFetch)
    (now1 now2 vw1 vh1 vw2 vh2 : Nat) (s : RegistryState) :
    handleMessagesSnapshot currentUid chatId (m :: rest2) f2 now2 vw2 vh2
      (handleMessagesSnapshot currentUid chatId (m :: rest1) f1 now1 vw1 vh1 s) =
    handleMessagesSnapshot currentUid chatId (m :: rest1) f1 now1 vw1 vh1 s := by
  unfold handleMessagesSnapshot
  simp only [List.head?_cons]
  by_cases h1 : m.senderId == currentUid
  · simp [h1]
  · by_cases h2 : s.lastSeenMessageIds.lookup chatId == some m.id
    · simp [h1, h2]
    · simp only [h1, h2, Bool.false_eq_true, ite_false]
      cases hfind : List.find? (fun w => w.user.uid == m.senderId)
          ({ s with lastSeenMessageIds := (chatId, m.id) :: s.lastSeenMessageIds }).chatWindows with
      | none => simp [hfind, h1, List.lookup]
      | some w => simp [hfind, h1, List.lookup]

/-- C2: every operation of the registry preserves the at-most-one-window-per-
counterpart-uid invariant: openChat, closeChat, minimizeChat, updatePosition,
markAsRead and the inbound-message snapshot handler all map a state whose window
list has pairwise-distinct counterpart uids to a state whose window list again
has pairwise-distinct counterpart uids. -/
theorem C2_at_most_one_window_per_uid (vw vh now : Nat) (u : UserProfile)
    (userId currentUid chatId : String) (pos : Position) (cu : Option String)
    (store : List StoredMessage) (ok : Bool) (docs : List Message)
    (fetch : ProfileFetch) (s : RegistryState)
    (h : uniqueWindows s.chatWindows) :
    uniqueWindows (openChat vw vh u s).chatWindows ∧
    uniqueWindows (closeChat userId s).chatWindows ∧
    uniqueWindows (minimizeChat userId s).chatWindows ∧
    uniqueWindows (updatePosition userId pos s).chatWindows ∧
    uniqueWindows (markAsRead userId cu store ok s).1.chatWindows ∧
    uniqueWindows (handleMessagesSnapshot currentUid chatId docs fetch now vw vh s).chatWindows :=
  ⟨uniqueWindows_openChat vw vh u s h, uniqueWindows_closeChat userId s h,
   uniqueWindows_minimizeChat userId s h, uniqueWindows_updatePosition userId pos s h,
   uniqueWindows_markAsRead userId cu store ok s h,
   uniqueWindows_handleMessagesSnapshot currentUid chatId docs fetch now vw vh s h⟩

/-- Witness for C2 at a concrete state satisfying the invariant. -/
theorem C2_at_most_one_window_per_uid_witness :
    uniqueWindows sampleState.chatWindows ∧
    (uniqueWindows (openChat 1024 768 profB sampleState).chatWindows ∧
     uniqueWindows (closeChat "alice" sampleState).chatWindows ∧
     uniqueWindows (minimizeChat "alice" sampleState).chatWindows ∧
     uniqueWindows (updatePosition "alice" { x := 5, y := 6 } sampleState).chatWindows ∧
     uniqueWindows (markAsRead "alice" (some "me") sampleStore true sampleState).1.chatWindows ∧
     uniqueWindows (handleMessagesSnapshot "me" "bob_me" [msgB] .notFound 7 1024 768 sampleState).chatWindows) :=
  ⟨by decide,
   C2_at_most_one_window_per_uid 1024 768 7 profB "alice" "me" "bob_me"
     { x := 5, y := 6 } (some "me") sampleStore true [msgB] .notFound sampleState
     (by decide)⟩

/-- C3: closeChat(U) removes every window whose counterpart is U from the window
list and puts U into the closed set, and in the resulting state an inbound
message snapshot for a conversation whose counterpart is U is skipped by the
chats handler: it leaves the registry state unchanged, so no window is
auto-created. -/
theorem C3_closeChat_suppresses_autoopen (userU currentUid : String)
    (s : RegistryState) (chatDoc : ChatDoc) (docs : List Message)
    (fetch : ProfileFetch) (now vw vh : Nat)
    (hc : chatDoc.participants.find? (fun pid => pid != currentUid) = some userU) :
    (∀ w ∈ (closeChat userU s).chatWindows, w.user.uid ≠ userU) ∧
    userU ∈ (closeChat userU s).closedChats ∧
    deliverChatUpdate currentUid chatDoc docs fetch now vw vh (closeChat userU s) =
      closeChat userU s :=
  ⟨closeChat_no_window userU s, closeChat_mem_closedChats userU s,
   deliverChatUpdate_skips_closed currentUid userU chatDoc docs fetch now vw vh
     (closeChat userU s) hc (closeChat_contains userU s)⟩

/-- Witness for C3: close the open window for alice, then deliver a message from
alice in the shared conversation; the state is unchanged. -/
theorem C3_closeChat_suppresses_autoopen_witness :
    (ChatDoc.mk "alice_me" ["me", "alice"]).participants.find?
      (fun pid => pid != "me") = some "alice" ∧
    ((∀ w ∈ (closeChat "alice" sampleState).chatWindows, w.user.uid ≠ "alice") ∧
     "alice" ∈ (closeChat "alice" sampleState).closedChats ∧
     deliverChatUpdate "me" (ChatDoc.mk "alice_me" ["me", "alice"])
       [{ id := "m2", senderId := "alice", senderName := "Alice", senderPhotoURL := "" }]
       .notFound 3 1024 768 (closeChat "alice" sampleState) =
       closeChat "alice" sampleState) :=
  ⟨by decide,
   C3_closeChat_suppresses_autoopen "alice" "me" sampleState
     (ChatDoc.mk "alice_me" ["me", "alice"])
     [{ id := "m2", senderId := "alice", senderName := "Alice", senderPhotoURL := "" }]
     .notFound 3 1024 768 (by decide)⟩

/-- C4: from any state whose window list satisfies the uniqueness invariant,
openChat(u) followed by openChat(u) yields literally the same state as a single
openChat(u) (the second call changes nothing), and that state has exactly one
window for u, which is un-minimized with unreadCount 0. -/
theorem C4_openChat_idempotent (vw vh : Nat) (u : UserProfile) (s : RegistryState)
    (h : uniqueWindows s.chatWindows) :
    openChat vw vh u (openChat vw vh u s) = openChat vw vh u s ∧
    ((openChat vw vh u (openChat vw vh u s)).chatWindows.countP
      (fun w => w.user.uid == u.uid)) = 1 ∧
    ∀ w ∈ (openChat vw vh u (openChat vw vh u s)).chatWindows, w.user.uid = u.uid →
      w.isMinimized = false ∧ w.unreadCount = 0 := by
  have hidem := openChat_noop vw vh u (openChat vw vh u s) (openChat_any vw vh u s)
    (openChat_target_state vw vh u s)
  refine ⟨hidem, ?_, ?_⟩
  · rw [hidem]
    exact openChat_countP vw vh u s h
  · rw [hidem]
    exact openChat_target_state vw vh u s

/-- Witness for C4 at a concrete state that already holds a window for the
re-opened user. -/
theorem C4_openChat_idempotent_witness :
    uniqueWindows sampleState.chatWindows ∧
    (openChat 1024 768 profA (openChat 1024 768 profA sampleState) =
      openChat 1024 768 profA sampleState ∧
    ((openChat 1024 768 profA (openChat 1024 768 profA sampleState)).chatWindows.countP
      (fun w => w.user.uid == profA.uid)) = 1 ∧
    ∀ w ∈ (openChat 1024 768 profA (openChat 1024 768 profA sampleState)).chatWindows,
      w.user.uid = profA.uid → w.isMinimized = false ∧ w.unreadCount = 0) :=
  ⟨by decide, C4_openChat_idempotent 1024 768 profA sampleState (by decide)⟩

/-- C5: when the sender-profile fetch fails (document not found, or the getDoc
call throws) and the sender has no existing window, the handler still creates
exactly one new window, appended to the list, whose profile is synthesized from
the message's embedded sender name and photo with isVerified = false,
role = user and status = active, minimized with unreadCount 1. -/
theorem C5_window_created_despite_fetch_failure (currentUid chatId : String)
    (m : Message) (rest : List Message) (fetch : ProfileFetch)
    (now vw vh : Nat) (s : RegistryState)
    (hf : fetch = ProfileFetch.notFound ∨ fetch = ProfileFetch.fetchError)
    (h1 : m.senderId ≠ currentUid)
    (h2 : List.lookup chatId s.lastSeenMessageIds ≠ some m.id)
    (h3 : ∀ w ∈ s.chatWindows, w.user.uid ≠ m.senderId) :
    ∃ wnd,
      (handleMessagesSnapshot currentUid chatId (m :: rest) fetch now vw vh s).chatWindows
        = s.chatWindows ++ [wnd] ∧
      wnd.user.displayName = m.senderName ∧
      wnd.user.photoURL = m.senderPhotoURL ∧
      wnd.user.isVerified = false ∧
      wnd.user.role = "user" ∧
      wnd.user.status = "active" ∧
      wnd.isMinimized = true ∧
      wnd.unreadCount = 1 := by
  have hbeq1 : (m.senderId == currentUid) = false := by
    simp [h1]
  have hbeq2 : (List.lookup chatId s.lastSeenMessageIds == some m.id) = false := by
    simp [h2]
  have hfind : List.find? (fun w => w.user.uid == m.senderId)
      ({ s with lastSeenMessageIds := (chatId, m.id) :: s.lastSeenMessageIds } :
        RegistryState).chatWindows = none :=
    List.find?_eq_none.mpr (fun w hw => by simp [h3 w hw])
  unfold handleMessagesSnapshot
  simp only [List.head?_cons, hbeq1, Bool.false_eq_true, ite_false, hbeq2, hfind]
  refine ⟨_, rfl, ?_, ?_, ?_, ?_, ?_, rfl, rfl⟩ <;>
    rcases hf with rfl | rfl <;>
    simp [buildSenderUser, strOr_empty_fallback]

/-- Witness for C5: a message from bob with the fetch throwing; the window is
created from the embedded fields. -/
theorem C5_window_created_despite_fetch_failure_witness :
    (ProfileFetch.fetchError = ProfileFetch.notFound ∨
      ProfileFetch.fetchError = ProfileFetch.fetchError) ∧
    ("bob" : String) ≠ "me" ∧
    List.lookup "bob_me" sampleState.lastSeenMessageIds ≠ some "m1" ∧
    (∀ w ∈ sampleState.chatWindows, w.user.uid ≠ "bob") ∧
    (∃ wnd,
      (handleMessagesSnapshot "me" "bob_me" [msgB] ProfileFetch.fetchError 7 1024 768
          sampleState).chatWindows = sampleState.chatWindows ++ [wnd] ∧
      wnd.user.displayName = msgB.senderName ∧
      wnd.user.photoURL = msgB.senderPhotoURL ∧
      wnd.user.isVerified = false ∧
      wnd.user.role = "user" ∧
      wnd.user.status = "active" ∧
      wnd.isMinimized = true ∧
      wnd.unreadCount = 1) :=
  ⟨Or.inr rfl, by decide, by decide, by decide,
   C5_window_created_despite_fetch_failure "me" "bob_me" msgB [] ProfileFetch.fetchError
     7 1024 768 sampleState (Or.inr rfl) (by decide) (by decide) (by decide)⟩

/-- C6: markAsRead zeroes the target window's local unreadCount synchronously -
the registry-state component of its result is exactly the local update
markAsReadLocal, independent of the remote store contents, of the authenticated
user, and of the batch-commit outcome (success and failure yield the same local
state; failure is never rolled back), and in the resulting state every window of
the target user has unreadCount 0. -/
theorem C6_markAsRead_local_zero_unconditional (userId : String)
    (cu : Option String) (store : List StoredMessage) (ok : Bool)
    (s : RegistryState) :
    (markAsRead userId cu store ok s).1 = markAsReadLocal userId s ∧
    (markAsRead userId cu store true s).1 = (markAsRead userId cu store false s).1 ∧
    ∀ w ∈ (markAsRead userId cu store ok s).1.chatWindows,
      w.user.uid = userId → w.unreadCount = 0 := by
  refine ⟨rfl, rfl, ?_⟩
  intro w hw huid
  rw [markAsRead_fst] at hw
  unfold markAsReadLocal at hw
  simp only [List.mem_map] at hw
  obtain ⟨v, hv, rfl⟩ := hw
  by_cases hc : (v.user.uid == userId) = true
  · simp [hc]
  · simp only [hc, Bool.false_eq_true, ite_false] at huid
    simp [huid] at hc

/-- Witness for C6 at a concrete state with a nonzero unread count. -/
theorem C6_markAsRead_local_zero_unconditional_witness :
    (markAsRead "alice" (some "me") sampleStore false sampleState).1 =
      markAsReadLocal "alice" sampleState ∧
    (markAsRead "alice" (some "me") sampleStore true sampleState).1 =
      (markAsRead "alice" (some "me") sampleStore false sampleState).1 ∧
    ∀ w ∈ (markAsRead "alice" (some "me") sampleStore false sampleState).1.chatWindows,
      w.user.uid = "alice" → w.unreadCount = 0 :=
  C6_markAsRead_local_zero_unconditional "alice" (some "me") sampleStore false sampleState

/-- C7: starting from a state with no windows, opening N pairwise-distinct users
in sequence stacks the k-th window at the cascading position (20 units further
from the bottom-right viewport edge per step in both axes, clamped at 0): the
k-th position is exactly (max 0 (w-320-20k), max 0 (h-400-20k)), each successive
position is the predecessor shifted by 20 and re-clamped, and while a coordinate
is still above the floor it strictly decreases. -/
theorem C7_cascading_positions (vw vh : Nat) (us : List UserProfile)
    (s : RegistryState)
    (hempty : s.chatWindows = [])
    (hnd : (us.map (fun u => u.uid)).Nodup) :
    (openAll vw vh us s).chatWindows.length = us.length ∧
    (∀ k (hk : k < (openAll vw vh us s).chatWindows.length),
      ((openAll vw vh us s).chatWindows.get ⟨k, hk⟩).position =
        { x := max 0 ((vw : Int) - 320 - (k : Int) * 20)
          y := max 0 ((vh : Int) - 400 - (k : Int) * 20) }) ∧
    (∀ k (hk1 : k + 1 < (openAll vw vh us s).chatWindows.length)
      (hk : k < (openAll vw vh us s).chatWindows.length),
      ((openAll vw vh us s).chatWindows.get ⟨k + 1, hk1⟩).position.x =
        max 0 (((openAll vw vh us s).chatWindows.get ⟨k, hk⟩).position.x - 20) ∧
      ((openAll vw vh us s).chatWindows.get ⟨k + 1, hk1⟩).position.y =
        max 0 (((openAll vw vh us s).chatWindows.get ⟨k, hk⟩).position.y - 20) ∧
      (0 < ((openAll vw vh us s).chatWindows.get ⟨k, hk⟩).position.x →
        ((openAll vw vh us s).chatWindows.get ⟨k + 1, hk1⟩).position.x <
          ((openAll vw vh us s).chatWindows.get ⟨k, hk⟩).position.x) ∧
      (0 < ((openAll vw vh us s).chatWindows.get ⟨k, hk⟩).position.y →
        ((openAll vw vh us s).chatWindows.get ⟨k + 1, hk1⟩).position.y <
          ((openAll vw vh us s).chatWindows.get ⟨k, hk⟩).position.y)) := by
  have h0 : ∀ u ∈ us, ∀ w ∈ s.chatWindows, w.user.uid ≠ u.uid := by
    intro u hu w hw
    rw [hempty] at hw
    exact absurd hw (List.not_mem_nil w)
  have hwin : (openAll vw vh us s).chatWindows = freshWindows vw vh 0 us := by
    rw [openAll_windows vw vh us s h0 hnd, hempty]
    rfl
  rw [hwin]
  refine ⟨freshWindows_length vw vh 0 us, ?_, ?_⟩
  · intro k hk
    have hku : k < us.length := by
      rwa [freshWindows_length] at hk
    rw [freshWindows_get vw vh us 0 k hku hk]
    simp only [mkFreshWindow, Nat.zero_add]
  · intro k hk1 hk
    have hku : k < us.length := by
      rwa [freshWindows_length] at hk
    have hku1 : k + 1 < us.length := by
      rwa [freshWindows_length] at hk1
    rw [freshWindows_get vw vh us 0 (k + 1) hku1 hk1,
      freshWindows_get vw vh us 0 k hku hk]
    simp only [mkFreshWindow, Nat.zero_add]
    push_cast
    refine ⟨?_, ?_, ?_, ?_⟩ <;> omega

/-- Witness for C7: opening alice, bob and cara in a 1024x768 viewport from the
empty state. -/
theorem C7_cascading_positions_witness :
    emptyState.chatWindows = [] ∧
    (([profA, profB, profC].map (fun u => u.uid)).Nodup) ∧
    ((openAll 1024 768 [profA, profB, profC] emptyState).chatWindows.length =
      [profA, profB, profC].length ∧
    (∀ k (hk : k < (openAll 1024 768 [profA, profB, profC] emptyState).chatWindows.length),
      ((openAll 1024 768 [profA, profB, profC] emptyState).chatWindows.get ⟨k, hk⟩).position =
        { x := max 0 ((1024 : Int) - 320 - (k : Int) * 20)
          y := max 0 ((768 : Int) - 400 - (k : Int) * 20) }) ∧
    (∀ k (hk1 : k + 1 < (openAll 1024 768 [profA, profB, profC] emptyState).chatWindows.length)
      (hk : k < (openAll 1024 768 [profA, profB, profC] emptyState).chatWindows.length),
      ((openAll 1024 768 [profA, profB, profC] emptyState).chatWindows.get ⟨k + 1, hk1⟩).position.x =
        max 0 (((openAll 1024 768 [profA, profB, profC] emptyState).chatWindows.get ⟨k, hk⟩).position.x - 20) ∧
      ((openAll 1024 768 [profA, profB, profC] emptyState).chatWindows.get ⟨k + 1, hk1⟩).position.y =
        max 0 (((openAll 1024 768 [profA, profB, profC] emptyState).chatWindows.get ⟨k, hk⟩).position.y - 20) ∧
      (0 < ((openAll 1024 768 [profA, profB, profC] emptyState).chatWindows.get ⟨k, hk⟩).position.x →
        ((openAll 1024 768 [profA, profB, profC] emptyState).chatWindows.get ⟨k + 1, hk1⟩).position.x <
          ((openAll 1024 768 [profA, profB, profC] emptyState).chatWindows.get ⟨k, hk⟩).position.x) ∧
      (0 < ((openAll 1024 768 [profA, profB, profC] emptyState).chatWindows.get ⟨k, hk⟩).position.y →
        ((openAll 1024 768 [profA, profB, profC] emptyState).chatWindows.get ⟨k + 1, hk1⟩).position.y <
          ((openAll 1024 768 [profA, profB, profC] emptyState).chatWindows.get ⟨k, hk⟩).position.y))) :=
  ⟨rfl, by decide,
   C7_cascading_positions 1024 768 [profA, profB, profC] emptyState rfl (by decide)⟩

/-- C8: an inbound message whose sender already has a window increments exactly
that window's unreadCount by 1 and leaves its id, user profile, minimized flag
and position untouched, and leaves every other window untouched (the list keeps
its length and order). -/
theorem C8_existing_window_unread_increment (currentUid chatId : String)
    (m : Message) (rest : List Message) (fetch : ProfileFetch)
    (now vw vh : Nat) (s : RegistryState)
    (h1 : m.senderId ≠ currentUid)
    (h2 : List.lookup chatId s.lastSeenMessageIds ≠ some m.id)
    (h3 : ∃ w ∈ s.chatWindows, w.user.uid = m.senderId) :
    (handleMessagesSnapshot currentUid chatId (m :: rest) fetch now vw vh s).chatWindows.length
      = s.chatWindows.length ∧
    ∀ k (hk : k < s.chatWindows.length)
      (hk2 : k <
        (handleMessagesSnapshot currentUid chatId (m :: rest) fetch now vw vh s).chatWindows.length),
      ((handleMessagesSnapshot currentUid chatId (m :: rest) fetch now vw vh
          s).chatWindows.get ⟨k, hk2⟩).id = (s.chatWindows.get ⟨k, hk⟩).id ∧
      ((handleMessagesSnapshot currentUid chatId (m :: rest) fetch now vw vh
          s).chatWindows.get ⟨k, hk2⟩).user = (s.chatWindows.get ⟨k, hk⟩).user ∧
      ((handleMessagesSnapshot currentUid chatId (m :: rest) fetch now vw vh
          s).chatWindows.get ⟨k, hk2⟩).isMinimized =
        (s.chatWindows.get ⟨k, hk⟩).isMinimized ∧
      ((handleMessagesSnapshot currentUid chatId (m :: rest) fetch now vw vh
          s).chatWindows.get ⟨k, hk2⟩).position = (s.chatWindows.get ⟨k, hk⟩).position ∧
      ((handleMessagesSnapshot currentUid chatId (m :: rest) fetch now vw vh
          s).chatWindows.get ⟨k, hk2⟩).unreadCount =
        (if (s.chatWindows.get ⟨k, hk⟩).user.uid = m.senderId then
          (s.chatWindows.get ⟨k, hk⟩).unreadCount + 1
        else (s.chatWindows.get ⟨k, hk⟩).unreadCount) := by
  have hbeq1 : (m.senderId == currentUid) = false := by
    simp [h1]
  have hbeq2 : (List.lookup chatId s.lastSeenMessageIds == some m.id) = false := by
    simp [h2]
  have hmap : (handleMessagesSnapshot currentUid chatId (m :: rest) fetch now vw vh
      s).chatWindows = s.chatWindows.map (fun w =>
        if w.user.uid == m.senderId then { w with unreadCount := w.unreadCount + 1 }
        else w) := by
    unfold handleMessagesSnapshot
    simp only [List.head?_cons, hbeq1, Bool.false_eq_true, ite_false, hbeq2]
    cases hfind : List.find? (fun w => w.user.uid == m.senderId)
        ({ s with lastSeenMessageIds := (chatId, m.id) :: s.lastSeenMessageIds } :
          RegistryState).chatWindows with
    | none =>
      obtain ⟨w0, hw0, huid0⟩ := h3
      have := List.find?_eq_none.mp hfind w0 hw0
      simp [huid0] at this
    | some w => simp only [hfind]
  constructor
  · rw [hmap, List.length_map]
  · intro k hk hk2
    have hget : (handleMessagesSnapshot currentUid chatId (m :: rest) fetch now vw vh
        s).chatWindows.get ⟨k, hk2⟩ =
        (if ((s.chatWindows.get ⟨k, hk⟩).user.uid == m.senderId) = true then
          { s.chatWindows.get ⟨k, hk⟩ with
              unreadCount := (s.chatWindows.get ⟨k, hk⟩).unreadCount + 1 }
        else s.chatWindows.get ⟨k, hk⟩) := by
      rw [List.get_of_eq hmap ⟨k, hk2⟩]
      simp only [List.get_eq_getElem, List.getElem_map]
    rw [hget]
    by_cases hc2 : (s.chatWindows.get ⟨k, hk⟩).user.uid = m.senderId
    · rw [if_pos (by rw [beq_iff_eq]; exact hc2 :
        ((s.chatWindows.get ⟨k, hk⟩).user.uid == m.senderId) = true), if_pos hc2]
      exact ⟨rfl, rfl, rfl, rfl, rfl⟩
    · rw [if_neg (by rw [beq_iff_eq]; exact hc2 :
        ¬ ((s.chatWindows.get ⟨k, hk⟩).user.uid == m.senderId) = true), if_neg hc2]
      exact ⟨rfl, rfl, rfl, rfl, rfl⟩

/-- Witness for C8: a message from alice while her window (unreadCount 2) is
open increments it to 3 and changes nothing else. -/
theorem C8_existing_window_unread_increment_witness :
    ("alice" : String) ≠ "me" ∧
    List.lookup "alice_me" sampleState.lastSeenMessageIds ≠ some "m7" ∧
    (∃ w ∈ sampleState.chatWindows, w.user.uid = "alice") ∧
    ((handleMessagesSnapshot "me" "alice_me" [msgA7] ProfileFetch.notFound 7 1024 768
        sampleState).chatWindows.length = sampleState.chatWindows.length ∧
    ∀ k (hk : k < sampleState.chatWindows.length)
      (hk2 : k < (handleMessagesSnapshot "me" "alice_me" [msgA7] ProfileFetch.notFound
        7 1024 768 sampleState).chatWindows.length),
      ((handleMessagesSnapshot "me" "alice_me" [msgA7] ProfileFetch.notFound 7 1024 768
          sampleState).chatWindows.get ⟨k, hk2⟩).id =
        (sampleState.chatWindows.get ⟨k, hk⟩).id ∧
      ((handleMessagesSnapshot "me" "alice_me" [msgA7] ProfileFetch.notFound 7 1024 768
          sampleState).chatWindows.get ⟨k, hk2⟩).user =
        (sampleState.chatWindows.get ⟨k, hk⟩).user ∧
      ((handleMessagesSnapshot "me" "alice_me" [msgA7] ProfileFetch.notFound 7 1024 768
          sampleState).chatWindows.get ⟨k, hk2⟩).isMinimized =
        (sampleState.chatWindows.get ⟨k, hk⟩).isMinimized ∧
      ((handleMessagesSnapshot "me" "alice_me" [msgA7] ProfileFetch.notFound 7 1024 768
          sampleState).chatWindows.get ⟨k, hk2⟩).position =
        (sampleState.chatWindows.get ⟨k, hk⟩).position ∧
      ((handleMessagesSnapshot "me" "alice_me" [msgA7] ProfileFetch.notFound 7 1024 768
          sampleState).chatWindows.get ⟨k, hk2⟩).unreadCount =
        (if (sampleState.chatWindows.get ⟨k, hk⟩).user.uid = msgA7.senderId then
          (sampleState.chatWindows.get ⟨k, hk⟩).unreadCount + 1
        else (sampleState.chatWindows.get ⟨k, hk⟩).unreadCount)) :=
  ⟨by decide, by decide, by decide,
   C8_existing_window_unread_increment "me" "alice_me" msgA7 [] ProfileFetch.notFound
     7 1024 768 sampleState (by decide) (by decide) (by decide)⟩

/-- C9: the conversation identifier (the two participant ids sorted
lexicographically and joined with the underscore separator) is symmetric in its
arguments, both as computed in closeChat for the typing-indicator document and
as computed in markAsRead for the read-state messages, and the two computations
agree on all inputs. -/
theorem C9_chatId_symmetric_and_shared (a b : String) :
    closeChatChatId a b = closeChatChatId b a ∧
    markAsReadChatId a b = markAsReadChatId b a ∧
    closeChatChatId a b = markAsReadChatId a b := by
  refine ⟨?_, ?_, rfl⟩
  · unfold closeChatChatId
    exact sortJoin_comm a b
  · unfold markAsReadChatId
    exact sortJoin_comm a b

/-- C10: closing a chat that has no window is a no-op on the window list, but
still records U in the closed set, and auto-open on an inbound message whose
conversation counterpart is U is suppressed afterwards. -/
theorem C10_closeChat_absent_window (userU currentUid : String)
    (s : RegistryState) (chatDoc : ChatDoc) (docs : List Message)
    (fetch : ProfileFetch) (now vw vh : Nat)
    (habsent : ∀ w ∈ s.chatWindows, w.user.uid ≠ userU)
    (hc : chatDoc.participants.find? (fun pid => pid != currentUid) = some userU) :
    (closeChat userU s).chatWindows = s.chatWindows ∧
    userU ∈ (closeChat userU s).closedChats ∧
    deliverChatUpdate currentUid chatDoc docs fetch now vw vh (closeChat userU s) =
      closeChat userU s := by
  refine ⟨?_, closeChat_mem_closedChats userU s,
    deliverChatUpdate_skips_closed currentUid userU chatDoc docs fetch now vw vh
      (closeChat userU s) hc (closeChat_contains userU s)⟩
  show s.chatWindows.filter (fun w => w.user.uid != userU) = s.chatWindows
  apply List.filter_eq_self.mpr
  intro w hw
  simpa using habsent w hw

/-- Witness for C10: close the never-opened chat with bob; the single alice
window survives, bob is in the closed set, and a message from bob is skipped. -/
theorem C10_closeChat_absent_window_witness :
    (∀ w ∈ sampleState.chatWindows, w.user.uid ≠ "bob") ∧
    (ChatDoc.mk "bob_me" ["me", "bob"]).participants.find?
      (fun pid => pid != "me") = some "bob" ∧
    ((closeChat "bob" sampleState).chatWindows = sampleState.chatWindows ∧
     "bob" ∈ (closeChat "bob" sampleState).closedChats ∧
     deliverChatUpdate "me" (ChatDoc.mk "bob_me" ["me", "bob"]) [msgB]
       .notFound 3 1024 768 (closeChat "bob" sampleState) =
       closeChat "bob" sampleState) :=
  ⟨by decide, by decide,
   C10_closeChat_absent_window "bob" "me" sampleState
     (ChatDoc.mk "bob_me" ["me", "bob"]) [msgB] .notFound 3 1024 768
     (by decide) (by decide)⟩

end ChatContext
